import Mathlib

/-!
Verification of the NITAL Electric Outages dashboard (`streamlit_app.py`, a
React single-file app) against its natural-language specification.

The source is a single-page dashboard.  Its data layer consists of:
* `generateMockFaults` — a pseudo-random generator of fault records drawn
  from a fixed 13-entry Northern Ireland location table;
* `fetchData` — a fetch routine that, in live mode, stores the parsed JSON
  payload verbatim into the `faults` state and, on any failure or in demo
  mode, replaces the fault list with freshly generated mock data;
* a severity/color classification used by the map markers, the sidebar dots
  and the `stats.critical` counter, all of which test
  `fault.type === 'Unplanned Outage'` by exact string equality;
* a `stats` memo computing total/customers/critical.

JavaScript randomness (`Math.floor(Math.random() * n)`) is embedded as an
explicit stream `rng : Nat → Nat` of draws, each reduced modulo the bound
`n`, so a draw models an arbitrary integer in `[0, n)`.  Times are `Int`
milliseconds; `toLocaleTimeString` formatting is an opaque parameter
`fmt : Int → String`.  Decimal coordinates are rationals.

Functions the spec attributes to the repository's other (absent) variants —
`classify_severity` over a keyword set and `extract_area_code` — do not
occur in the source file and are modelled from the spec, marked as such.
-/

namespace NITAL

/-- One entry of the fixed `locations` table (lines 26–40 of the source). -/
structure Location where
  town : String
  postcode : String
  lat : ℚ
  lng : ℚ
deriving Repr, DecidableEq

/-- A fault record as pushed by `generateMockFaults` (lines 56–67). -/
structure Fault where
  id : String
  type : String
  location : String
  postcode : String
  coordinates : ℚ × ℚ
  customersAffected : Nat
  status : String
  startTime : String
  estRestoration : String
  message : String
deriving Repr, DecidableEq

/-- `incidentTypes` (line 25). -/
def incidentTypes : List String :=
  ["Unplanned Outage", "Planned Work", "Equipment Fault", "Storm Damage"]

/-- The fixed 13-entry location table (lines 26–40). -/
def locations : List Location :=
  [ ⟨"Belfast (South)", "BT9", 54.57, -5.96⟩,
    ⟨"Bangor", "BT19", 54.66, -5.67⟩,
    ⟨"Derry/Londonderry", "BT48", 55.00, -7.34⟩,
    ⟨"Omagh", "BT78", 54.60, -7.30⟩,
    ⟨"Newry", "BT34", 54.17, -6.34⟩,
    ⟨"Lisburn", "BT27", 54.51, -6.04⟩,
    ⟨"Ballymena", "BT42", 54.86, -6.28⟩,
    ⟨"Enniskillen", "BT74", 54.34, -7.64⟩,
    ⟨"Coleraine", "BT51", 55.13, -6.66⟩,
    ⟨"Dungannon", "BT70", 54.50, -6.77⟩,
    ⟨"Millisle", "BT22", 54.61, -5.53⟩,
    ⟨"Antrim", "BT41", 54.71, -6.22⟩,
    ⟨"Portadown", "BT62", 54.42, -6.44⟩ ]

/-- `statuses` (line 42). -/
def statuses : List String :=
  ["Investigating", "Engineer Assigned", "Engineer On Site", "Work in Progress"]

/-- Embeds the JS idiom `xs[Math.floor(Math.random() * xs.length)]`:
a random draw `r` reduced modulo the list length, with a default for the
(unreachable) empty case. -/
def pick {α : Type} (l : List α) (d : α) (r : Nat) : α :=
  l.getD (r % l.length) d

/-- Placeholder location used as `getD` default; never selected since the
table is non-empty. -/
def defaultLocation : Location := ⟨"", "", 0, 0⟩

/-- `generateMockFaults` (lines 24–70).  Draw `rng 0` gives the count
(`Math.floor(Math.random()*8) + 5`); draws `6*i+1 … 6*i+6` give, for the
`i`-th fault, the location index, type index, customers
(`Math.floor(Math.random()*200) + 10`), restoration offset (up to 4 h in
ms), status index and start-time offset (up to 2 h in ms), in source
order. -/
def mkMockFault (rng : Nat → Nat) (fmt : Int → String) (now : Int) (i : Nat) :
    Fault :=
  let loc := pick locations defaultLocation (rng (6 * i + 1))
  let ty := pick incidentTypes "" (rng (6 * i + 2))
  let customers := rng (6 * i + 3) % 200 + 10
  let restoreOffset : Int := (rng (6 * i + 4) % (4 * 60 * 60 * 1000) : Nat)
  let st := pick statuses "" (rng (6 * i + 5))
  let startOffset : Int := (rng (6 * i + 6) % (2 * 60 * 60 * 1000) : Nat)
  { id := "INC-" ++ toString (10000 + i)
    type := ty
    location := loc.town
    postcode := loc.postcode
    coordinates := (loc.lat, loc.lng)
    customersAffected := customers
    status := st
    startTime := fmt (now - startOffset)
    estRestoration := fmt (now + restoreOffset)
    message := "Our engineers are working to restore power as quickly as possible." }

/-- The full generator: `Math.floor(Math.random()*8) + 5` faults built by
the loop body. -/
def generateMockFaults (rng : Nat → Nat) (fmt : Int → String) (now : Int) :
    List Fault :=
  (List.range (rng 0 % 8 + 5)).map (mkMockFault rng fmt now)

/-- The two severity buckets of the color classification. -/
inductive Severity where
  | urgent
  | informational
deriving Repr, DecidableEq

/-- The classification test used at line 181 (`isUnplanned`, map marker
color), line 280 (`stats.critical`) and line 453 (sidebar dot color):
exact string equality with `'Unplanned Outage'`. -/
def isUnplanned (f : Fault) : Bool :=
  f.type == "Unplanned Outage"

/-- The marker CSS class chosen at line 184: red for unplanned, amber
otherwise. -/
def markerClass (f : Fault) : String :=
  if isUnplanned f then "marker-unplanned" else "marker-planned"

/-- The two-bucket severity classification the source actually performs:
urgent (red) exactly when `isUnplanned`, informational (amber) otherwise. -/
def markerSeverity (f : Fault) : Severity :=
  if isUnplanned f then .urgent else .informational

/-- The summary statistics record (lines 276–282). -/
structure Stats where
  total : Nat
  customers : Nat
  critical : Nat
deriving Repr, DecidableEq

/-- `stats` (lines 276–282): total count, `reduce`-accumulated customers,
and the count of faults whose type is exactly `'Unplanned Outage'`. -/
def stats (faults : List Fault) : Stats :=
  { total := faults.length
    customers := faults.foldl (fun acc curr => acc + curr.customersAffected) 0
    critical := (faults.filter (fun f => f.type == "Unplanned Outage")).length }

/-- A parsed JSON value, as produced by `response.json()` (line 252).  The
source is untyped JavaScript, so the live payload can have any shape. -/
inductive JsonValue where
  | null
  | bool (b : Bool)
  | num (q : ℚ)
  | str (s : String)
  | arr (items : List JsonValue)
  | obj (fields : List (String × JsonValue))

/-- The dynamic value held in the `faults` React state: the live branch
stores the parsed payload verbatim (`setFaults(data)`, line 253), the demo
branch and the catch branch store a generated fault list (lines 256, 262). -/
inductive FaultsValue where
  | fromJson (v : JsonValue)
  | mock (fs : List Fault)

/-- Outcome of the single `fetch(LIVE_API_URL)` attempt of one live-mode
call: the response parsed successfully, or one of the three failure modes
that throw inside the `try` block (line 250: network error; line 251:
non-ok status; line 252: unparsable body). -/
inductive FetchOutcome where
  | ok (payload : JsonValue)
  | httpError
  | networkError
  | parseError

/-- The React state of `PowercheckDashboard` touched by `fetchData`
(lines 237–241; `selectedFault` is never written by `fetchData` and is
omitted). -/
structure DashState where
  faults : FaultsValue
  loading : Bool
  lastUpdated : Option Int
  dataSource : String

/-- The `try` block of `fetchData` (lines 248–258): in live mode a failure
outcome throws (modelled as `Except.error`); in demo mode mock faults are
generated.  On the success paths the payload or mock list is stored and
`lastUpdated` is set. -/
def fetchBody (outcome : FetchOutcome) (rng : Nat → Nat) (fmt : Int → String)
    (now : Int) (st : DashState) : Except String DashState :=
  if st.dataSource == "live" then
    match outcome with
    | .ok payload =>
        .ok { st with faults := .fromJson payload, lastUpdated := some now }
    | .httpError => .error "Network response was not ok"
    | .networkError => .error "fetch failed"
    | .parseError => .error "unparsable body"
  else
    .ok { st with
          faults := .mock (generateMockFaults rng fmt now)
          lastUpdated := some now }

/-- `fetchData` (lines 244–267): runs the `try` block; the `catch` branch
(lines 259–263) switches to demo mode, stores fresh mock faults and still
sets `lastUpdated`; the `finally` (line 265) clears `loading`.  The
function is total: every exception of the body is caught. -/
def fetchData (outcome : FetchOutcome) (rng : Nat → Nat) (fmt : Int → String)
    (now : Int) (st : DashState) : DashState :=
  match fetchBody outcome rng fmt now st with
  | .ok st2 => { st2 with loading := false }
  | .error _ =>
      { st with
        dataSource := "demo"
        faults := .mock (generateMockFaults rng fmt now)
        lastUpdated := some now
        loading := false }

/-- `fetchData` paired with the number of upstream HTTP requests the call
performs: the live branch always awaits `fetch(LIVE_API_URL)` exactly once
(line 250), the demo branch performs none. -/
def fetchDataInstr (outcome : FetchOutcome) (rng : Nat → Nat)
    (fmt : Int → String) (now : Int) (st : DashState) : DashState × Nat :=
  (fetchData outcome rng fmt now st, if st.dataSource == "live" then 1 else 0)

/-- The only time constant in the source: the `setInterval` polling period
of 300000 ms (line 271).  It schedules `fetchData` calls; no cache or
time-to-live check reads it. -/
def pollIntervalMs : Nat := 300000

/-! Spec-modelled normalizer functions.

The spec describes a Feed Normalizer belonging to the repository's other
variants; none of the following functions occur in the source file under
`src/`.  They are modelled from the spec's words and marked as such. -/

/-- ASCII uppercase-letter test on code points (A–Z). -/
def isUpperCh (c : Char) : Bool :=
  decide (65 ≤ c.toNat ∧ c.toNat ≤ 90)

/-- ASCII letter test on code points (A–Z or a–z). -/
def isAlphaCh (c : Char) : Bool :=
  isUpperCh c || decide (97 ≤ c.toNat ∧ c.toNat ≤ 122)

/-- ASCII digit test on code points (0–9). -/
def isDigitCh (c : Char) : Bool :=
  decide (48 ≤ c.toNat ∧ c.toNat ≤ 57)

/-- ASCII lower-casing of one character. -/
def lowerCh (c : Char) : Char :=
  if isUpperCh c then Char.ofNat (c.toNat + 32) else c

/-- ASCII lower-casing of a string, for the case-insensitive keyword test. -/
def lowerStr (s : String) : String :=
  String.mk (s.toList.map lowerCh)

/-- `prefixMatch needle hay` is true when `needle` occurs at the start of
`hay`. -/
def prefixMatch : List Char → List Char → Bool
  | [], _ => true
  | _ :: _, [] => false
  | c :: cs, d :: ds => c == d && prefixMatch cs ds

/-- `containsSub needle hay` is true when `needle` occurs contiguously
somewhere in `hay`. -/
def containsSub (needle : List Char) : List Char → Bool
  | [] => needle.isEmpty
  | d :: ds => prefixMatch needle (d :: ds) || containsSub needle ds

/-- The spec's fixed severity keyword set. -/
def severityKeywords : List String := ["unplanned", "fault", "hv"]

/-- Modelled from the spec: `classify_severity` of the Feed Normalizer (a
variant absent from `src/`): case-insensitive substring test of the kind
against the keyword set, defaulting to informational. -/
def classify_severity (kind : String) : Severity :=
  if severityKeywords.any (fun k => containsSub k.toList (lowerStr kind).toList)
  then .urgent else .informational

/-- The declarative outcode shape of the spec: two uppercase letters,
optionally followed by more letters, then one or more digits. -/
def AreaShape (t : List Char) : Prop :=
  ∃ a b v w, t = a :: b :: (v ++ w) ∧ isUpperCh a = true ∧ isUpperCh b = true ∧
    (∀ c ∈ v, isAlphaCh c = true) ∧ w ≠ [] ∧ (∀ c ∈ w, isDigitCh c = true)

/-- Modelled from the spec: greedy match of the outcode pattern at the head
of `l` — two uppercase letters, a maximal (possibly empty) run of further
letters, then a maximal non-empty run of digits. -/
def matchAt : List Char → Option (List Char)
  | c1 :: c2 :: rest =>
      if isUpperCh c1 && isUpperCh c2 then
        let letters := rest.takeWhile isAlphaCh
        let rest2 := rest.dropWhile isAlphaCh
        let digits := rest2.takeWhile isDigitCh
        if digits.isEmpty then none
        else some (c1 :: c2 :: (letters ++ digits))
      else none
  | _ => none

/-- Left-to-right scan for the first position where the outcode pattern
matches. -/
def extractAux : List Char → Option (List Char)
  | [] => none
  | c :: cs =>
      match matchAt (c :: cs) with
      | some r => some r
      | none => extractAux cs

/-- Modelled from the spec: `extract_area_code` of the Feed Normalizer (a
variant absent from `src/`): the first substring matching the outcode
pattern, or `none` when no substring matches. -/
def extract_area_code (s : String) : Option String :=
  (extractAux s.toList).map String.mk

/-! Shared concrete inputs for witnesses and counterexamples. -/

/-- A concrete randomness stream: every draw is 0. -/
def rng0 : Nat → Nat := fun _ => 0

/-- A concrete opaque time formatter. -/
def fmt0 : Int → String := fun _ => ""

/-- A concrete dashboard state in live mode with an empty fault list. -/
def stLive0 : DashState :=
  { faults := .mock [], loading := false, lastUpdated := none,
    dataSource := "live" }

/-- A concrete fault record used as `getD` default and in counterexamples. -/
def defaultFault : Fault :=
  { id := "", type := "", location := "", postcode := "", coordinates := (0, 0)
    customersAffected := 0, status := "", startTime := "", estRestoration := ""
    message := "" }

/-- A concrete JSON record with no coordinate field and no extractable area
code in any of its string values. -/
def recNoCoords : JsonValue :=
  .obj [("id", .str "X-1"), ("location", .str "no code here")]

/-- Field-presence test on a JSON record (an object is the only shape with
fields). -/
def hasField (r : JsonValue) (k : String) : Bool :=
  match r with
  | .obj fields => fields.any (fun p => p.1 == k)
  | _ => false

/-! Helper lemmas. -/

lemma pick_mem {α : Type} (l : List α) (d : α) (r : Nat) (h : l ≠ []) :
    pick l d r ∈ l := by
  have hlen : 0 < l.length := List.length_pos.mpr h
  have hlt : r % l.length < l.length := Nat.mod_lt _ hlen
  rw [pick, List.getD_eq_getElem l d hlt]
  exact List.getElem_mem hlt

lemma generateMockFaults_length (rng : Nat → Nat) (fmt : Int → String)
    (now : Int) : (generateMockFaults rng fmt now).length = rng 0 % 8 + 5 := by
  simp [generateMockFaults]

lemma generateMockFaults_getD (rng : Nat → Nat) (fmt : Int → String)
    (now : Int) (i : Nat) (h : i < (generateMockFaults rng fmt now).length) :
    (generateMockFaults rng fmt now).getD i defaultFault =
      mkMockFault rng fmt now i := by
  rw [List.getD_eq_getElem _ _ h]
  have hi : i < rng 0 % 8 + 5 := by
    simpa [generateMockFaults_length] using h
  simp [generateMockFaults]

lemma mem_generateMockFaults {rng : Nat → Nat} {fmt : Int → String}
    {now : Int} {f : Fault} (h : f ∈ generateMockFaults rng fmt now) :
    ∃ i, f = mkMockFault rng fmt now i := by
  rcases List.mem_map.mp h with ⟨i, _, rfl⟩
  exact ⟨i, rfl⟩

lemma mkMockFault_coordinates (rng : Nat → Nat) (fmt : Int → String)
    (now : Int) (i : Nat) :
    ∃ loc ∈ locations,
      (mkMockFault rng fmt now i).location = loc.town ∧
      (mkMockFault rng fmt now i).postcode = loc.postcode ∧
      (mkMockFault rng fmt now i).coordinates = (loc.lat, loc.lng) := by
  refine ⟨pick locations defaultLocation (rng (6 * i + 1)), ?_, rfl, rfl, rfl⟩
  exact pick_mem _ _ _ (by simp [locations])

lemma foldl_customers (l : List Fault) (n : Nat) :
    l.foldl (fun acc curr => acc + curr.customersAffected) n =
      n + (l.map Fault.customersAffected).sum := by
  induction l generalizing n with
  | nil => simp
  | cons f fs ih => simp [List.foldl_cons, ih, Nat.add_assoc]

/-! Claims about the summary statistics and the severity buckets. -/

/-- C10: the summary stats satisfy: `total` is the number of faults,
`customers` is the sum of `customersAffected` over all faults, and
`critical` is the number of faults whose type is exactly
`'Unplanned Outage'`. -/
theorem stats_correct (faults : List Fault) :
    (stats faults).total = faults.length ∧
    (stats faults).customers = (faults.map Fault.customersAffected).sum ∧
    (stats faults).critical =
      faults.countP (fun f => f.type == "Unplanned Outage") := by
  refine ⟨rfl, ?_, ?_⟩
  · simpa [stats] using foldl_customers faults 0
  · simp [stats, List.countP_eq_length_filter]

/-- C1 counterexample: `'Equipment Fault'` is one of the generator's own
incident types; its kind case-insensitively contains the keyword
`"fault"`, so the spec's keyword classification calls it urgent — but the
classification the source performs (exact equality with
`'Unplanned Outage'` at lines 181, 280, 453) puts it in the informational
(amber) bucket. -/
theorem severity_keyword_counterexample :
    "Equipment Fault" ∈ incidentTypes ∧
    containsSub ("fault".toList) ((lowerStr "Equipment Fault").toList) = true ∧
    classify_severity "Equipment Fault" = Severity.urgent ∧
    markerSeverity { defaultFault with type := "Equipment Fault" } =
      Severity.informational ∧
    markerSeverity { defaultFault with type := "Equipment Fault" } ≠
      Severity.urgent := by
  refine ⟨by decide, by decide, by decide, by decide, by decide⟩

/-- C1 (amended): the source's severity classification is an exact string
match, not a keyword-substring test: a fault is in the urgent (red) bucket
iff its type is exactly `'Unplanned Outage'`, and every other type —
including ones containing "fault" or "hv" — gets the informational (amber)
marker. -/
theorem severity_exact_match (f : Fault) :
    (markerSeverity f = Severity.urgent ↔ f.type = "Unplanned Outage") ∧
    markerClass f =
      (if f.type = "Unplanned Outage" then "marker-unplanned"
       else "marker-planned") := by
  constructor
  · unfold markerSeverity isUnplanned
    rcases h : (f.type == "Unplanned Outage") with _ | _
    · simp_all [beq_iff_eq]
    · simp_all [beq_iff_eq]
  · unfold markerClass isUnplanned
    rcases h : (f.type == "Unplanned Outage") with _ | _
    · simp_all [beq_iff_eq]
    · simp_all [beq_iff_eq]

/-! Claims about the fetch cycle. -/

/-- C7: on every fetch call the snapshot is constructed fresh and replaces
the previous one wholesale: the resulting `faults` value does not depend on
the previous `faults` value (no incremental update, no diffing), and it is
either a freshly generated mock list or, on a successful live fetch, the
verbatim payload of this very call. -/
theorem fetch_snapshot_wholesale (outcome : FetchOutcome) (rng : Nat → Nat)
    (fmt : Int → String) (now : Int) (st1 st2 : DashState)
    (h : st1.dataSource = st2.dataSource) :
    (fetchData outcome rng fmt now st1).faults =
      (fetchData outcome rng fmt now st2).faults ∧
    ((fetchData outcome rng fmt now st1).faults =
        .mock (generateMockFaults rng fmt now) ∨
      ∃ p, outcome = .ok p ∧
        (fetchData outcome rng fmt now st1).faults = .fromJson p) := by
  unfold fetchData fetchBody
  rw [← h]
  rcases hb : (st1.dataSource == "live") with _ | _ <;>
    rcases outcome with p | _ | _ | _ <;> simp [hb]

/-- Closed witness for `fetch_snapshot_wholesale`: two live states with
different previous fault lists produce the same fresh snapshot. -/
theorem fetch_snapshot_wholesale_witness :
    (fetchData (.ok (.arr [])) rng0 fmt0 0 stLive0).faults =
      (fetchData (.ok (.arr [])) rng0 fmt0 0
        { stLive0 with faults := .mock [defaultFault] }).faults ∧
    ((fetchData (.ok (.arr [])) rng0 fmt0 0 stLive0).faults =
        .mock (generateMockFaults rng0 fmt0 0) ∨
      ∃ p, FetchOutcome.ok (.arr []) = .ok p ∧
        (fetchData (.ok (.arr [])) rng0 fmt0 0 stLive0).faults = .fromJson p) :=
  fetch_snapshot_wholesale (.ok (.arr [])) rng0 fmt0 0 stLive0
    { stLive0 with faults := .mock [defaultFault] } rfl

/-- C8: when a live-mode fetch fails for any reason (non-ok status, network
error, unparsable body), `fetchData` switches the source to demo, replaces
the fault list with a freshly generated non-empty mock dataset, and still
sets `lastUpdated`. -/
theorem live_failure_demo_fallback (outcome : FetchOutcome) (rng : Nat → Nat)
    (fmt : Int → String) (now : Int) (st : DashState)
    (hl : st.dataSource = "live") (hf : ∀ p, outcome ≠ .ok p) :
    (fetchData outcome rng fmt now st).dataSource = "demo" ∧
    (fetchData outcome rng fmt now st).faults =
      .mock (generateMockFaults rng fmt now) ∧
    5 ≤ (generateMockFaults rng fmt now).length ∧
    (fetchData outcome rng fmt now st).lastUpdated = some now := by
  have hlen : 5 ≤ (generateMockFaults rng fmt now).length := by
    rw [generateMockFaults_length]; omega
  unfold fetchData fetchBody
  rcases outcome with p | _ | _ | _
  · exact absurd rfl (hf p)
  all_goals simp [hl, hlen]

/-- Closed witness for `live_failure_demo_fallback` at a parse failure. -/
theorem live_failure_demo_fallback_witness :
    (fetchData .parseError rng0 fmt0 0 stLive0).dataSource = "demo" ∧
    (fetchData .parseError rng0 fmt0 0 stLive0).faults =
      .mock (generateMockFaults rng0 fmt0 0) ∧
    5 ≤ (generateMockFaults rng0 fmt0 0).length ∧
    (fetchData .parseError rng0 fmt0 0 stLive0).lastUpdated = some 0 :=
  live_failure_demo_fallback .parseError rng0 fmt0 0 stLive0 rfl
    (fun _ h => FetchOutcome.noConfusion h)

/-- C9: every generated mock list has between 5 and 12 faults; each fault
draws its location, postcode and coordinates from the fixed 13-entry
location table, has between 10 and 209 affected customers, and carries the
id `"INC-"` followed by `10000 + i` for its index `i`. -/
theorem generateMockFaults_shape (rng : Nat → Nat) (fmt : Int → String)
    (now : Int) (i : Nat) (h : i < (generateMockFaults rng fmt now).length) :
    5 ≤ (generateMockFaults rng fmt now).length ∧
    (generateMockFaults rng fmt now).length ≤ 12 ∧
    (∃ loc ∈ locations,
      ((generateMockFaults rng fmt now).getD i defaultFault).location =
        loc.town ∧
      ((generateMockFaults rng fmt now).getD i defaultFault).postcode =
        loc.postcode ∧
      ((generateMockFaults rng fmt now).getD i defaultFault).coordinates =
        (loc.lat, loc.lng)) ∧
    10 ≤ ((generateMockFaults rng fmt now).getD i
      defaultFault).customersAffected ∧
    ((generateMockFaults rng fmt now).getD i
      defaultFault).customersAffected ≤ 209 ∧
    ((generateMockFaults rng fmt now).getD i defaultFault).id =
      "INC-" ++ toString (10000 + i) := by
  have hmod : rng 0 % 8 < 8 := Nat.mod_lt _ (by omega)
  have hcust : rng (6 * i + 3) % 200 < 200 := Nat.mod_lt _ (by omega)
  rw [generateMockFaults_getD rng fmt now i h, generateMockFaults_length]
  refine ⟨by omega, by omega, mkMockFault_coordinates rng fmt now i, ?_, ?_, rfl⟩
  · show 10 ≤ rng (6 * i + 3) % 200 + 10
    omega
  · show rng (6 * i + 3) % 200 + 10 ≤ 209
    omega

/-- Closed witness for `generateMockFaults_shape` at the all-zero
randomness stream and index 0. -/
theorem generateMockFaults_shape_witness :
    5 ≤ (generateMockFaults rng0 fmt0 0).length ∧
    (generateMockFaults rng0 fmt0 0).length ≤ 12 ∧
    (∃ loc ∈ locations,
      ((generateMockFaults rng0 fmt0 0).getD 0 defaultFault).location =
        loc.town ∧
      ((generateMockFaults rng0 fmt0 0).getD 0 defaultFault).postcode =
        loc.postcode ∧
      ((generateMockFaults rng0 fmt0 0).getD 0 defaultFault).coordinates =
        (loc.lat, loc.lng)) ∧
    10 ≤ ((generateMockFaults rng0 fmt0 0).getD 0
      defaultFault).customersAffected ∧
    ((generateMockFaults rng0 fmt0 0).getD 0
      defaultFault).customersAffected ≤ 209 ∧
    ((generateMockFaults rng0 fmt0 0).getD 0 defaultFault).id =
      "INC-" ++ toString (10000 + 0) :=
  generateMockFaults_shape rng0 fmt0 0 0 (by decide)

/-- C2 counterexample: a live payload record with no coordinate field and
no extractable area code in any of its string values is nevertheless
retained verbatim in the emitted `faults` value — `fetchData` performs no
coordinate-based filtering. -/
theorem no_coordinate_filtering_counterexample :
    hasField recNoCoords "coordinates" = false ∧
    hasField recNoCoords "lat" = false ∧
    hasField recNoCoords "lng" = false ∧
    extract_area_code "no code here" = none ∧
    extract_area_code "X-1" = none ∧
    (fetchData (.ok (.arr [recNoCoords])) rng0 fmt0 0 stLive0).faults =
      .fromJson (.arr [recNoCoords]) ∧
    FaultsValue.fromJson (.arr [recNoCoords]) ≠
      FaultsValue.fromJson (.arr []) :=
  ⟨by decide, by decide, by decide, by decide, by decide, rfl,
    by intro hcontra; simp at hcontra⟩

/-- C2 (amended): `fetchData` stores a successful live payload verbatim —
no record is dropped and no coordinate invariant is enforced on it; only
the mock-generated faults are guaranteed coordinates, drawn from the fixed
location table (hence numeric and finite). -/
theorem no_coordinate_filtering (p : JsonValue) (rng : Nat → Nat)
    (fmt : Int → String) (now : Int) (st : DashState)
    (h : st.dataSource = "live") :
    (fetchData (.ok p) rng fmt now st).faults = .fromJson p ∧
    ∀ f ∈ generateMockFaults rng fmt now,
      ∃ loc ∈ locations, f.coordinates = (loc.lat, loc.lng) := by
  constructor
  · unfold fetchData fetchBody
    simp [h]
  · intro f hf
    rcases mem_generateMockFaults hf with ⟨i, rfl⟩
    rcases mkMockFault_coordinates rng fmt now i with ⟨loc, hloc, _, _, hco⟩
    exact ⟨loc, hloc, hco⟩

/-- Closed witness for `no_coordinate_filtering` on an empty live payload. -/
theorem no_coordinate_filtering_witness :
    (fetchData (.ok (.arr [])) rng0 fmt0 0 stLive0).faults =
      .fromJson (.arr []) ∧
    ∀ f ∈ generateMockFaults rng0 fmt0 0,
      ∃ loc ∈ locations, f.coordinates = (loc.lat, loc.lng) :=
  no_coordinate_filtering (.arr []) rng0 fmt0 0 stLive0 rfl

/-- C3 counterexample: on an unparsable live payload the emitted fault
list is a freshly generated mock dataset of five records (under the
all-zero randomness stream), not an empty sequence. -/
theorem unparsable_payload_counterexample :
    (fetchData .parseError rng0 fmt0 0 stLive0).faults =
      .mock (generateMockFaults rng0 fmt0 0) ∧
    (generateMockFaults rng0 fmt0 0).length = 5 ∧
    generateMockFaults rng0 fmt0 0 ≠ [] := by
  refine ⟨rfl, rfl, ?_⟩
  intro hnil
  have hlen := congrArg List.length hnil
  rw [generateMockFaults_length] at hlen
  simp [rng0] at hlen

/-- C3 (amended): no exception escapes `fetchData` — an unparsable live
payload raises inside the `try` block and is caught — but the resulting
fault list is a fresh non-empty mock dataset, not an empty sequence; an
empty (successfully parsed) payload is stored as the empty list itself. -/
theorem fetch_failure_total (rng : Nat → Nat) (fmt : Int → String)
    (now : Int) (st : DashState) (h : st.dataSource = "live") :
    (fetchData (.ok (.arr [])) rng fmt now st).faults = .fromJson (.arr []) ∧
    (∃ e, fetchBody .parseError rng fmt now st = .error e) ∧
    (fetchData .parseError rng fmt now st).faults =
      .mock (generateMockFaults rng fmt now) ∧
    5 ≤ (generateMockFaults rng fmt now).length := by
  have hlen : 5 ≤ (generateMockFaults rng fmt now).length := by
    rw [generateMockFaults_length]; omega
  unfold fetchData fetchBody
  simp [h, hlen]

/-- Closed witness for `fetch_failure_total` at the initial live state. -/
theorem fetch_failure_total_witness :
    (fetchData (.ok (.arr [])) rng0 fmt0 0 stLive0).faults =
      .fromJson (.arr []) ∧
    (∃ e, fetchBody .parseError rng0 fmt0 0 stLive0 = .error e) ∧
    (fetchData .parseError rng0 fmt0 0 stLive0).faults =
      .mock (generateMockFaults rng0 fmt0 0) ∧
    5 ≤ (generateMockFaults rng0 fmt0 0).length :=
  fetch_failure_total rng0 fmt0 0 stLive0 rfl

/-- C4 counterexample: two live fetch calls 1000 ms apart — well inside
the 300000 ms polling period, the only time constant in the source — each
perform an upstream request (two in total, not one), and their snapshots
differ when the upstream payloads differ: there is no cache. -/
theorem no_cache_counterexample :
    (1000 : Int) - 0 < (pollIntervalMs : Nat) ∧
    (fetchDataInstr (.ok (.arr [])) rng0 fmt0 0 stLive0).2 = 1 ∧
    (fetchDataInstr (.ok (.arr [.null])) rng0 fmt0 1000
      (fetchDataInstr (.ok (.arr [])) rng0 fmt0 0 stLive0).1).2 = 1 ∧
    (fetchDataInstr (.ok (.arr [])) rng0 fmt0 0 stLive0).1.faults ≠
      (fetchDataInstr (.ok (.arr [.null])) rng0 fmt0 1000
        (fetchDataInstr (.ok (.arr [])) rng0 fmt0 0 stLive0).1).1.faults := by
  refine ⟨by decide, rfl, rfl, ?_⟩
  intro hcontra
  simp [fetchDataInstr, fetchData, fetchBody, stLive0] at hcontra

/-- C4 (amended): there is no snapshot cache and no time-to-live check:
every live-mode `fetchData` call performs exactly one upstream request
regardless of how recently the previous call ran, and each successful call
stores its own payload as the new snapshot.  The 300000 ms constant is the
polling interval that schedules calls, not a cache window. -/
theorem no_cache_every_call_fetches (p1 p2 : JsonValue) (rng : Nat → Nat)
    (fmt : Int → String) (now1 now2 : Int) (st : DashState)
    (h : st.dataSource = "live") :
    (fetchDataInstr (.ok p1) rng fmt now1 st).2 = 1 ∧
    (fetchDataInstr (.ok p2) rng fmt now2
      (fetchDataInstr (.ok p1) rng fmt now1 st).1).2 = 1 ∧
    (fetchDataInstr (.ok p1) rng fmt now1 st).1.faults = .fromJson p1 ∧
    (fetchDataInstr (.ok p2) rng fmt now2
      (fetchDataInstr (.ok p1) rng fmt now1 st).1).1.faults =
      .fromJson p2 := by
  unfold fetchDataInstr fetchData fetchBody
  simp [h]

/-- Closed witness for `no_cache_every_call_fetches`: two immediate live
calls with distinct payloads. -/
theorem no_cache_every_call_fetches_witness :
    (fetchDataInstr (.ok (.arr [])) rng0 fmt0 0 stLive0).2 = 1 ∧
    (fetchDataInstr (.ok (.arr [.null])) rng0 fmt0 1000
      (fetchDataInstr (.ok (.arr [])) rng0 fmt0 0 stLive0).1).2 = 1 ∧
    (fetchDataInstr (.ok (.arr [])) rng0 fmt0 0 stLive0).1.faults =
      .fromJson (.arr []) ∧
    (fetchDataInstr (.ok (.arr [.null])) rng0 fmt0 1000
      (fetchDataInstr (.ok (.arr [])) rng0 fmt0 0 stLive0).1).1.faults =
      .fromJson (.arr [.null]) :=
  no_cache_every_call_fetches (.arr []) (.arr [.null]) rng0 fmt0 0 1000
    stLive0 rfl

/-- C5 counterexample: a dictionary payload wrapping the item list under
the key `"incidents"` is stored as the wrapping dictionary itself, which is
a different value from the inner list — nothing unwraps it. -/
theorem no_unwrap_counterexample :
    (fetchData (.ok (.obj [("incidents", .arr [recNoCoords])])) rng0 fmt0 0
        stLive0).faults =
      .fromJson (.obj [("incidents", .arr [recNoCoords])]) ∧
    FaultsValue.fromJson (.obj [("incidents", .arr [recNoCoords])]) ≠
      FaultsValue.fromJson (.arr [recNoCoords]) := by
  refine ⟨rfl, ?_⟩
  intro hcontra
  simp at hcontra

/-- C5 (amended): `fetchData` performs no payload normalization at all: a
dictionary wrapping the item list under `"incidents"` is stored verbatim,
and the stored value is never the inner list. -/
theorem no_incidents_unwrap (items : List JsonValue) (rng : Nat → Nat)
    (fmt : Int → String) (now : Int) (st : DashState)
    (h : st.dataSource = "live") :
    (fetchData (.ok (.obj [("incidents", .arr items)])) rng fmt now st).faults
      = .fromJson (.obj [("incidents", .arr items)]) ∧
    FaultsValue.fromJson (.obj [("incidents", .arr items)]) ≠
      FaultsValue.fromJson (.arr items) := by
  constructor
  · unfold fetchData fetchBody
    simp [h]
  · intro hcontra
    simp at hcontra

/-- Closed witness for `no_incidents_unwrap` on an empty wrapped list. -/
theorem no_incidents_unwrap_witness :
    (fetchData (.ok (.obj [("incidents", .arr [])])) rng0 fmt0 0
        stLive0).faults
      = .fromJson (.obj [("incidents", .arr [])]) ∧
    FaultsValue.fromJson (.obj [("incidents", .arr [])]) ≠
      FaultsValue.fromJson (.arr []) :=
  no_incidents_unwrap [] rng0 fmt0 0 stLive0 rfl

/-! Lemmas about the area-code extractor. -/

lemma digit_not_alpha {c : Char} (h : isDigitCh c = true) :
    isAlphaCh c = false := by
  simp only [isDigitCh, decide_eq_true_eq] at h
  simp only [isAlphaCh, isUpperCh, Bool.or_eq_false_iff, decide_eq_false_iff_not]
  omega

lemma takeWhile_append_all {p : Char → Bool} {v : List Char} (w : List Char)
    (hv : ∀ c ∈ v, p c = true) :
    (v ++ w).takeWhile p = v ++ w.takeWhile p := by
  induction v with
  | nil => simp
  | cons c cs ih =>
      have hc : p c = true := hv c (List.mem_cons_self c cs)
      have ih2 := ih (fun d hd => hv d (List.mem_cons_of_mem c hd))
      simp [List.takeWhile_cons, hc, ih2]

lemma dropWhile_append_all {p : Char → Bool} {v : List Char} (w : List Char)
    (hv : ∀ c ∈ v, p c = true) :
    (v ++ w).dropWhile p = w.dropWhile p := by
  induction v with
  | nil => simp
  | cons c cs ih =>
      have hc : p c = true := hv c (List.mem_cons_self c cs)
      have ih2 := ih (fun d hd => hv d (List.mem_cons_of_mem c hd))
      simp [List.dropWhile_cons, hc, ih2]

lemma matchAt_sound {l r : List Char} (h : matchAt l = some r) :
    AreaShape r ∧ ∃ suf, l = r ++ suf := by
  rcases l with _ | ⟨c1, l⟩
  · exact absurd h (by simp [matchAt])
  rcases l with _ | ⟨c2, rest⟩
  · exact absurd h (by simp [matchAt])
  by_cases hup : (isUpperCh c1 && isUpperCh c2) = true
  · rcases Bool.and_eq_true_iff.mp hup with ⟨h1, h2⟩
    by_cases hde :
        ((rest.dropWhile isAlphaCh).takeWhile isDigitCh).isEmpty = true
    · exact absurd h (by simp [matchAt, hup, hde])
    · have hr : r = c1 :: c2 :: (rest.takeWhile isAlphaCh ++
          (rest.dropWhile isAlphaCh).takeWhile isDigitCh) := by
        have := h
        simp only [matchAt, hup, if_true, hde, if_false,
          Bool.not_eq_true] at this
        rw [if_neg (by simp [hde])] at this
        exact (Option.some.inj this).symm
      refine ⟨?_, ?_⟩
      · refine ⟨c1, c2, rest.takeWhile isAlphaCh,
          (rest.dropWhile isAlphaCh).takeWhile isDigitCh, hr, h1, h2,
          ?_, ?_, ?_⟩
        · intro c hc
          exact List.mem_takeWhile_imp hc
        · intro hnil
          rw [hnil] at hde
          exact hde rfl
        · intro c hc
          exact List.mem_takeWhile_imp hc
      · refine ⟨(rest.dropWhile isAlphaCh).dropWhile isDigitCh, ?_⟩
        rw [hr]
        simp only [List.cons_append, List.cons.injEq, true_and,
          List.append_assoc]
        rw [List.takeWhile_append_dropWhile,
          List.takeWhile_append_dropWhile]
  · exact absurd h (by simp [matchAt, hup])

lemma matchAt_some_of_shape {t : List Char} (suf : List Char)
    (hshape : AreaShape t) : ∃ r, matchAt (t ++ suf) = some r := by
  rcases hshape with ⟨a, b, v, w, rfl, ha, hb, hv, hw, hdig⟩
  rcases w with _ | ⟨d, w2⟩
  · exact absurd rfl hw
  have hd : isDigitCh d = true := hdig d (List.mem_cons_self d w2)
  have hdalpha : isAlphaCh d = false := digit_not_alpha hd
  have heq : (a :: b :: (v ++ d :: w2)) ++ suf =
      a :: b :: (v ++ (d :: (w2 ++ suf))) := by
    simp [List.append_assoc]
  rw [heq]
  have htake : (v ++ (d :: (w2 ++ suf))).takeWhile isAlphaCh = v := by
    rw [takeWhile_append_all _ hv]
    simp [List.takeWhile_cons, hdalpha]
  have hdrop : (v ++ (d :: (w2 ++ suf))).dropWhile isAlphaCh =
      d :: (w2 ++ suf) := by
    rw [dropWhile_append_all _ hv]
    simp [List.dropWhile_cons, hdalpha]
  have hdigits : ((v ++ (d :: (w2 ++ suf))).dropWhile
      isAlphaCh).takeWhile isDigitCh =
      d :: (w2 ++ suf).takeWhile isDigitCh := by
    rw [hdrop]
    simp [List.takeWhile_cons, hd]
  refine ⟨a :: b :: (v ++ (d :: (w2 ++ suf).takeWhile isDigitCh)), ?_⟩
  simp only [matchAt, ha, hb, Bool.and_self, if_true, hdigits, htake]
  rw [if_neg (by simp)]

lemma extractAux_none {l : List Char} (h : extractAux l = none) :
    ∀ pre t suf, l = pre ++ t ++ suf → ¬AreaShape t := by
  induction l with
  | nil =>
      intro pre t suf hdecomp hshape
      rcases hshape with ⟨a, b, v, w, rfl, _⟩
      simp at hdecomp
  | cons c cs ih =>
      intro pre t suf hdecomp hshape
      rcases hmm : matchAt (c :: cs) with _ | r
      · have htail : extractAux cs = none := by
          rw [extractAux, hmm] at h
          exact h
        rcases pre with _ | ⟨p, pre2⟩
        · rw [List.nil_append] at hdecomp
          rcases matchAt_some_of_shape suf hshape with ⟨r2, hr2⟩
          rw [← hdecomp, hmm] at hr2
          cases hr2
        · rw [List.cons_append, List.cons_append] at hdecomp
          injection hdecomp with h1 h2
          exact ih htail pre2 t suf h2 hshape
      · rw [extractAux, hmm] at h
        cases h

lemma extractAux_some {l r : List Char} (h : extractAux l = some r) :
    ∃ pre suf, l = pre ++ r ++ suf ∧ AreaShape r ∧
      ∀ pre2 t suf2, l = pre2 ++ t ++ suf2 → AreaShape t →
        pre.length ≤ pre2.length := by
  induction l with
  | nil =>
      rw [extractAux] at h
      cases h
  | cons c cs ih =>
      rcases hmm : matchAt (c :: cs) with _ | r0
      · have htail : extractAux cs = some r := by
          rw [extractAux, hmm] at h
          exact h
        rcases ih htail with ⟨pre, suf, hdec, hshape, hmin⟩
        refine ⟨c :: pre, suf, by simp [hdec], hshape, ?_⟩
        intro pre2 t suf2 hdecomp2 hshape2
        rcases pre2 with _ | ⟨p, pre3⟩
        · rw [List.nil_append] at hdecomp2
          rcases matchAt_some_of_shape suf2 hshape2 with ⟨r2, hr2⟩
          rw [← hdecomp2, hmm] at hr2
          cases hr2
        · rw [List.cons_append, List.cons_append] at hdecomp2
          injection hdecomp2 with h1 h2
          have hle := hmin pre3 t suf2 h2 hshape2
          simpa using Nat.succ_le_succ hle
      · have hr : r0 = r := by
          rw [extractAux, hmm] at h
          exact Option.some.inj h
        subst hr
        rcases matchAt_sound hmm with ⟨hshape, suf, hsuf⟩
        exact ⟨[], suf, by simpa using hsuf, hshape,
          fun _ _ _ _ _ => Nat.zero_le _⟩

/-- C6: `extract_area_code` returns the leftmost substring of its input
matching the outcode shape — two uppercase letters, optionally more
letters, then one or more digits — and `none` when no substring matches;
in particular it returns `"BT12"` on `"BT12 3; BT9 4"` and `none` on
`"no code here"`. -/
theorem extract_area_code_correct :
    extract_area_code "BT12 3; BT9 4" = some "BT12" ∧
    extract_area_code "no code here" = none ∧
    (∀ s r, extract_area_code s = some r →
      ∃ pre suf, s.toList = pre ++ r.toList ++ suf ∧ AreaShape r.toList ∧
        ∀ pre2 t suf2, s.toList = pre2 ++ t ++ suf2 → AreaShape t →
          pre.length ≤ pre2.length) ∧
    (∀ s, extract_area_code s = none →
      ∀ pre t suf, s.toList = pre ++ t ++ suf → ¬AreaShape t) := by
  refine ⟨by decide, by decide, ?_, ?_⟩
  · intro s r hsr
    unfold extract_area_code at hsr
    rcases Option.map_eq_some'.mp hsr with ⟨r0, haux, hmk⟩
    have hr0 : r.toList = r0 := by
      rw [← hmk]
      rfl
    rw [hr0]
    exact extractAux_some haux
  · intro s hs
    unfold extract_area_code at hs
    exact extractAux_none (Option.map_eq_none'.mp hs)

/-- Closed witness for `extract_area_code_correct`: the leftmost-match
conjunct instantiated at the spec's own example. -/
theorem extract_area_code_correct_witness :
    ∃ pre suf,
      ("BT12 3; BT9 4" : String).toList =
        pre ++ ("BT12" : String).toList ++ suf ∧
      AreaShape ("BT12" : String).toList ∧
      ∀ pre2 t suf2,
        ("BT12 3; BT9 4" : String).toList = pre2 ++ t ++ suf2 →
        AreaShape t → pre.length ≤ pre2.length :=
  extract_area_code_correct.2.2.1 "BT12 3; BT9 4" "BT12" (by decide)

end NITAL
